import Mathlib

/-!
Verification of the DataStreamDAT contract-integration client
(lazai-integration/contract_integration.py) against its specification.

The Python client talks to a JSON-RPC ledger through the web3 library.  We
embed it shallowly: the network is a structure of pure fallible functions
(an `Env`), the client methods become Lean functions from an `Env` and the
client configuration to a structured result, and every network interaction
is additionally recorded in an event trace so that properties such as
"zero submissions" or "nonce resolved once" are statable.
-/

namespace LazAI

/-- Wire-level call data of the two state-changing contract functions bound
by the simplified ABI (mintDataDAT and payForQuery). -/
inductive CallData where
  | mintDataDAT (tokenURI : String) (queryPriceWei : Nat)
      (fileId : String) (dataClass : String) (dataValue : String)
  | payForQuery (tokenId : Nat) (query : String)
deriving DecidableEq, Repr

/-- A transaction as assembled by build_transaction: the from-address, the
attached value, the gas limit, the gas price, the nonce, and the encoded
contract call.  Mirrors the dict literals at lines 151-156 and 216-222 of
contract_integration.py. -/
structure Tx where
  sender : String
  value : Nat
  gas : Nat
  gasPrice : Nat
  nonce : Nat
  callData : CallData
deriving DecidableEq, Repr

/-- A signed transaction: sign_transaction pairs the assembled transaction
with the signing key; the raw bytes submitted to the network determine
exactly these data. -/
structure SignedTx where
  tx : Tx
  signerKey : String
deriving DecidableEq, Repr

/-- A transaction receipt.  The Python code reads only status, blockNumber
and gasUsed.  A real receipt also carries the emitted event logs (the spec
data model lists "any emitted event data needed to recover the assigned
tokenId"); we keep that event payload as `logsTokenId` so that claims about
event decoding are statable.  The client never reads it. -/
structure Receipt where
  status : Nat
  blockNumber : Nat
  gasUsed : Nat
  logsTokenId : Option Nat
deriving DecidableEq, Repr

/-- Block identifier accepted by the eth getTransactionCount RPC: the count
over confirmed blocks only (latest) or including queued transactions
(pending). -/
inductive BlockTag where
  | latest
  | pending
deriving DecidableEq, Repr

/-- web3.py resolves get_transaction_count with the block identifier
defaulting to the latest confirmed block when the caller passes none, which
is how contract_integration.py calls it (lines 155 and 221). -/
def defaultBlockTag : BlockTag := BlockTag.latest

/-- The network as seen through the web3 connection: each primitive either
returns a value or fails with an exception message.  Deterministic
functions model one fixed network state at call time. -/
structure Env where
  fileIdExists : String → Except String Bool
  gas_price : Except String Nat
  get_transaction_count : BlockTag → Except String Nat
  send_raw_transaction : SignedTx → Except String String
  wait_for_transaction_receipt : String → Except String Receipt
  getDATStats : Nat → Except String (Nat × Nat × Bool)

/-- One recorded network interaction of a client method. -/
inductive Event where
  | fileIdExistsCall (fileId : String)
  | gasPriceCall
  | nonceCall (tag : BlockTag)
  | submitCall (stx : SignedTx)
  | waitReceiptCall (txHash : String)
deriving DecidableEq, Repr

/-- True exactly on submission events. -/
def isSubmitEvent : Event → Bool
  | Event.submitCall _ => true
  | _ => false

/-- True exactly on nonce-resolution events. -/
def isNonceEvent : Event → Bool
  | Event.nonceCall _ => true
  | _ => false

/-- Number of signed submissions in a trace. -/
def countSubmits (tr : List Event) : Nat := (tr.filter isSubmitEvent).length

/-- Number of nonce resolutions in a trace. -/
def countNonceCalls (tr : List Event) : Nat := (tr.filter isNonceEvent).length

/-- Client configuration held by a DataStreamDATIntegration instance. -/
structure ClientState where
  contract_address : String
  private_key : String
  account_address : String
deriving DecidableEq, Repr

/-- Result dictionary of mint_dat.  Absent keys are `none`. -/
structure MintResult where
  success : Bool
  token_id : Option Nat
  file_id : Option String
  transaction_hash : Option String
  block_number : Option Nat
  gas_used : Option Nat
  error : Option String
deriving DecidableEq, Repr

/-- The dictionary returned from the except-branch of mint_dat
(lines 190-193): success false plus the exception text. -/
def mintFailure (e : String) : MintResult :=
  { success := false, token_id := none, file_id := none,
    transaction_hash := none, block_number := none, gas_used := none,
    error := some e }

/-- Result dictionary of pay_for_query. -/
structure PayResult where
  success : Bool
  transaction_hash : Option String
  block_number : Option Nat
  gas_used : Option Nat
  error : Option String
deriving DecidableEq, Repr

/-- The dictionary returned from the except-branch of pay_for_query
(lines 247-250). -/
def payFailure (e : String) : PayResult :=
  { success := false, transaction_hash := none, block_number := none,
    gas_used := none, error := some e }

/-- Result dictionary of get_dat_stats. -/
structure StatsResult where
  success : Bool
  token_id : Option Nat
  total_queries : Option Nat
  total_earned : Option Nat
  is_active : Option Bool
  error : Option String
deriving DecidableEq, Repr

/-- The transaction assembled by mint_dat at lines 145-156: fixed gas limit
500000, gas price and nonce as fetched, no attached value. -/
def mkMintTx (c : ClientState) (gp n : Nat) (token_uri : String)
    (query_price_wei : Nat) (file_id data_class data_value : String) : Tx :=
  { sender := c.account_address, value := 0, gas := 500000,
    gasPrice := gp, nonce := n,
    callData := CallData.mintDataDAT token_uri query_price_wei file_id
      data_class data_value }

/-- The signed mint transaction (line 159). -/
def mkMintSigned (c : ClientState) (gp n : Nat) (token_uri : String)
    (query_price_wei : Nat) (file_id data_class data_value : String) : SignedTx :=
  { tx := mkMintTx c gp n token_uri query_price_wei file_id data_class data_value,
    signerKey := c.private_key }

/-- The transaction assembled by pay_for_query at lines 213-222: fixed gas
limit 200000, the payment attached as value. -/
def mkPayTx (c : ClientState) (gp n : Nat) (token_id : Nat) (query : String)
    (payment_wei : Nat) : Tx :=
  { sender := c.account_address, value := payment_wei, gas := 200000,
    gasPrice := gp, nonce := n,
    callData := CallData.payForQuery token_id query }

/-- The signed payment transaction (line 225). -/
def mkPaySigned (c : ClientState) (gp n : Nat) (token_id : Nat) (query : String)
    (payment_wei : Nat) : SignedTx :=
  { tx := mkPayTx c gp n token_id query payment_wei,
    signerKey := c.private_key }

/-- Embedding of DataStreamDATIntegration.mint_dat (lines 122-193).  The
whole body sits in a try-except that converts any raised exception into a
success-false dictionary carrying the exception text.  Steps, in source
order: existence check, gas price fetch, nonce fetch (default block tag),
build and sign, submit, wait for receipt, then branch on receipt.status.
Returns the result dictionary together with the trace of network calls. -/
def mint_dat (env : Env) (c : ClientState) (token_uri : String)
    (query_price_wei : Nat) (file_id data_class data_value : String) :
    MintResult × List Event :=
  match env.fileIdExists file_id with
  | Except.error e => (mintFailure e, [Event.fileIdExistsCall file_id])
  | Except.ok true =>
      (mintFailure ("File ID " ++ file_id ++ " already exists"),
       [Event.fileIdExistsCall file_id])
  | Except.ok false =>
    match env.gas_price with
    | Except.error e =>
        (mintFailure e, [Event.fileIdExistsCall file_id, Event.gasPriceCall])
    | Except.ok gp =>
      match env.get_transaction_count defaultBlockTag with
      | Except.error e =>
          (mintFailure e,
           [Event.fileIdExistsCall file_id, Event.gasPriceCall,
            Event.nonceCall defaultBlockTag])
      | Except.ok n =>
        match env.send_raw_transaction
            (mkMintSigned c gp n token_uri query_price_wei file_id
              data_class data_value) with
        | Except.error e =>
            (mintFailure e,
             [Event.fileIdExistsCall file_id, Event.gasPriceCall,
              Event.nonceCall defaultBlockTag,
              Event.submitCall (mkMintSigned c gp n token_uri query_price_wei
                file_id data_class data_value)])
        | Except.ok txHash =>
          match env.wait_for_transaction_receipt txHash with
          | Except.error e =>
              (mintFailure e,
               [Event.fileIdExistsCall file_id, Event.gasPriceCall,
                Event.nonceCall defaultBlockTag,
                Event.submitCall (mkMintSigned c gp n token_uri query_price_wei
                  file_id data_class data_value),
                Event.waitReceiptCall txHash])
          | Except.ok receipt =>
            (if receipt.status = 1 then
              { success := true, token_id := some receipt.blockNumber,
                file_id := some file_id, transaction_hash := some txHash,
                block_number := some receipt.blockNumber,
                gas_used := some receipt.gasUsed, error := none }
            else mintFailure "Transaction failed",
             [Event.fileIdExistsCall file_id, Event.gasPriceCall,
              Event.nonceCall defaultBlockTag,
              Event.submitCall (mkMintSigned c gp n token_uri query_price_wei
                file_id data_class data_value),
              Event.waitReceiptCall txHash])

/-- Embedding of DataStreamDATIntegration.pay_for_query (lines 195-250).
Same try-except shape as mint_dat, without an existence check and with the
payment attached as value. -/
def pay_for_query (env : Env) (c : ClientState) (token_id : Nat)
    (query : String) (payment_wei : Nat) : PayResult × List Event :=
  match env.gas_price with
  | Except.error e => (payFailure e, [Event.gasPriceCall])
  | Except.ok gp =>
    match env.get_transaction_count defaultBlockTag with
    | Except.error e =>
        (payFailure e, [Event.gasPriceCall, Event.nonceCall defaultBlockTag])
    | Except.ok n =>
      match env.send_raw_transaction (mkPaySigned c gp n token_id query payment_wei) with
      | Except.error e =>
          (payFailure e,
           [Event.gasPriceCall, Event.nonceCall defaultBlockTag,
            Event.submitCall (mkPaySigned c gp n token_id query payment_wei)])
      | Except.ok txHash =>
        match env.wait_for_transaction_receipt txHash with
        | Except.error e =>
            (payFailure e,
             [Event.gasPriceCall, Event.nonceCall defaultBlockTag,
              Event.submitCall (mkPaySigned c gp n token_id query payment_wei),
              Event.waitReceiptCall txHash])
        | Except.ok receipt =>
          (if receipt.status = 1 then
            { success := true, transaction_hash := some txHash,
              block_number := some receipt.blockNumber,
              gas_used := some receipt.gasUsed, error := none }
          else payFailure "Transaction failed",
           [Event.gasPriceCall, Event.nonceCall defaultBlockTag,
            Event.submitCall (mkPaySigned c gp n token_id query payment_wei),
            Event.waitReceiptCall txHash])

/-- Embedding of DataStreamDATIntegration.get_dat_stats (lines 252-277):
a read call whose triple result is unpacked into the dictionary, with the
same try-except conversion of exceptions. -/
def get_dat_stats (env : Env) (token_id : Nat) : StatsResult :=
  match env.getDATStats token_id with
  | Except.error e =>
      { success := false, token_id := none, total_queries := none,
        total_earned := none, is_active := none, error := some e }
  | Except.ok stats =>
      { success := true, token_id := some token_id,
        total_queries := some stats.1, total_earned := some stats.2.1,
        is_active := some stats.2.2, error := none }

/-- Errors raised by DataStreamDATIntegration.__init__: ValueError for a
missing configuration value, ConnectionError for a failed connectivity
probe, and a key-derivation failure from account.from_key. -/
inductive InitError where
  | valueError (msg : String)
  | connectionError (msg : String)
  | keyError (msg : String)
deriving DecidableEq, Repr

/-- A constructed integration instance: the fields set by a completed
__init__ that later methods use. -/
structure Client where
  rpc_url : String
  contract_address : String
  private_key : String
  account_address : String
deriving DecidableEq, Repr

/-- Pythonic `a or b` on optional strings: the empty string and a missing
value are both falsy. -/
def pyOr (a b : Option String) : Option String :=
  match a with
  | some s => if s = "" then b else some s
  | none => b

/-- Pythonic truthiness of an optional string. -/
def truthyStr : Option String → Bool
  | some s => s ≠ ""
  | none => false

/-- Process environment and network reachability as seen by __init__:
the three environment variables it reads, the connectivity probe
w3.is_connected on the chosen endpoint, and key-to-address derivation
(account.from_key), which fails on a malformed key. -/
structure InitEnv where
  lazai_rpc_url : Option String
  dat_contract_address : Option String
  env_private_key : Option String
  is_connected : String → Bool
  from_key : String → Option String

/-- Embedding of DataStreamDATIntegration.__init__ (lines 21-59): resolve
the three settings from arguments with environment fallbacks (the RPC URL
falling back to the testnet default), raise ValueError when the contract
address or the private key resolves falsy, raise ConnectionError when the
connectivity probe fails, then derive the account from the key.  ABI
loading (lines 61-74) cannot fail: its try-except falls back to the
hardcoded ABI. -/
def datIntegrationInit (e : InitEnv)
    (rpc_url contract_address private_key : Option String) :
    Except InitError Client :=
  let rpc := pyOr rpc_url (some (Option.getD e.lazai_rpc_url "https://testnet.lazai.network"))
  let ca := pyOr contract_address e.dat_contract_address
  let pk := pyOr private_key e.env_private_key
  if truthyStr ca = false then
    Except.error (InitError.valueError "Contract address not provided")
  else if truthyStr pk = false then
    Except.error (InitError.valueError "Private key not provided")
  else if e.is_connected (Option.getD rpc "") = false then
    Except.error (InitError.connectionError "Failed to connect to LazAI network")
  else
    match e.from_key (Option.getD pk "") with
    | none => Except.error (InitError.keyError "could not derive account from key")
    | some addr =>
        Except.ok { rpc_url := Option.getD rpc "",
                    contract_address := Option.getD ca "",
                    private_key := Option.getD pk "",
                    account_address := addr }

/-- Modelled from the spec and the web3 library: mint_dat and
pay_for_query confirm through w3.eth.wait_for_transaction_receipt, whose
loop (not part of this repository) polls the transaction every
poll_latency seconds and raises TimeExhausted once the timeout elapses.
`lookup k` is the receipt the network returns at the k-th poll, `fuel` the
remaining polls before the deadline.  The returned number counts the polls
actually performed. -/
def pollForReceipt (lookup : Nat → Option Receipt) :
    Nat → Nat → Except String Receipt × Nat
  | 0, _ => (Except.error "TimeExhausted", 0)
  | fuel + 1, k =>
    match lookup k with
    | some r => (Except.ok r, 1)
    | none =>
      let res := pollForReceipt lookup fuel (k + 1)
      (res.1, res.2 + 1)

/-- Number of polls a wait window allows: the timeout divided by the poll
interval, rounded up.  With the web3 defaults (timeout 120s, poll latency
0.1s, both here in tenths of a second) this is 1200. -/
def maxPolls (timeout pollInterval : Nat) : Nat :=
  (timeout + pollInterval - 1) / pollInterval

/-- Nonces of the transactions submitted in a trace, in order. -/
def submittedNonces (tr : List Event) : List Nat :=
  tr.filterMap fun e =>
    match e with
    | Event.submitCall s => some s.tx.nonce
    | _ => none

/-- A sample client configuration for concrete runs. -/
def sampleClient : ClientState :=
  { contract_address := "0xC0", private_key := "0xKEY", account_address := "0xACC" }

/-- A successful receipt whose event logs carry the contract-assigned
tokenId 7 while the block number is 12345. -/
def okReceipt : Receipt :=
  { status := 1, blockNumber := 12345, gasUsed := 21000, logsTokenId := some 7 }

/-- A network state in which every primitive succeeds: the fileId is fresh,
gas price 2, confirmed transaction count 5 while one transaction is still
queued (pending count 6), submissions are acknowledged with a fixed hash,
and the receipt is `okReceipt`. -/
def envHappy : Env :=
  { fileIdExists := fun _ => Except.ok false,
    gas_price := Except.ok 2,
    get_transaction_count := fun t =>
      match t with
      | BlockTag.latest => Except.ok 5
      | BlockTag.pending => Except.ok 6,
    send_raw_transaction := fun _ => Except.ok "0xhash",
    wait_for_transaction_receipt := fun _ => Except.ok okReceipt,
    getDATStats := fun _ => Except.ok (0, 0, true) }

/-- Like `envHappy` but the fileId is already minted. -/
def envDup : Env := { envHappy with fileIdExists := fun _ => Except.ok true }

/-- Like `envHappy` but the confirmed receipt reports on-chain failure. -/
def envFailedTx : Env :=
  { envHappy with
    wait_for_transaction_receipt := fun _ =>
      Except.ok { status := 0, blockNumber := 12345, gasUsed := 21000,
                  logsTokenId := none } }

/-- Like `envHappy` but no receipt ever appears within the wait window. -/
def envTimeout : Env :=
  { envHappy with
    wait_for_transaction_receipt := fun _ => Except.error "TimeExhausted" }

/-- C1: when fileIdExists already holds for the requested fileId, mint_dat
stops right after the existence check: the trace is exactly that one read,
so zero signed submissions are issued, no transaction hash is produced,
and the result is a failure carrying the duplicate-fileId error text. -/
theorem mint_duplicate_rejected_before_build
    (env : Env) (c : ClientState) (token_uri : String) (query_price_wei : Nat)
    (file_id data_class data_value : String)
    (h : env.fileIdExists file_id = Except.ok true) :
    (mint_dat env c token_uri query_price_wei file_id data_class data_value).2
      = [Event.fileIdExistsCall file_id]
    ∧ countSubmits
        (mint_dat env c token_uri query_price_wei file_id data_class data_value).2 = 0
    ∧ (mint_dat env c token_uri query_price_wei file_id data_class data_value).1.success
        = false
    ∧ (mint_dat env c token_uri query_price_wei file_id data_class
        data_value).1.transaction_hash = none
    ∧ (mint_dat env c token_uri query_price_wei file_id data_class data_value).1.error
        = some ("File ID " ++ file_id ++ " already exists") := by
  simp [mint_dat, h, mintFailure, countSubmits, isSubmitEvent]

/-- Witness for C1 at a concrete duplicated fileId. -/
theorem mint_duplicate_rejected_before_build_witness :
    envDup.fileIdExists "fid1" = Except.ok true
    ∧ ((mint_dat envDup sampleClient "uri" 1000 "fid1" "reference" "high").2
        = [Event.fileIdExistsCall "fid1"]
      ∧ countSubmits
          (mint_dat envDup sampleClient "uri" 1000 "fid1" "reference" "high").2 = 0
      ∧ (mint_dat envDup sampleClient "uri" 1000 "fid1" "reference" "high").1.success
          = false
      ∧ (mint_dat envDup sampleClient "uri" 1000 "fid1" "reference"
          "high").1.transaction_hash = none
      ∧ (mint_dat envDup sampleClient "uri" 1000 "fid1" "reference" "high").1.error
          = some ("File ID " ++ "fid1" ++ " already exists")) :=
  ⟨rfl, mint_duplicate_rejected_before_build envDup sampleClient "uri" 1000 "fid1"
    "reference" "high" rfl⟩

/-- C5: each invocation of a write operation submits at most one signed
transaction, whatever the network does: no failure branch resubmits. -/
theorem at_most_one_submission_per_call
    (env : Env) (c : ClientState) (token_uri : String) (query_price_wei : Nat)
    (file_id data_class data_value : String) (token_id : Nat) (query : String)
    (payment_wei : Nat) :
    countSubmits (mint_dat env c token_uri query_price_wei file_id data_class
        data_value).2 ≤ 1
    ∧ countSubmits (pay_for_query env c token_id query payment_wei).2 ≤ 1 := by
  constructor
  · unfold mint_dat
    rcases hfe : env.fileIdExists file_id with e | b
    · simp [hfe, countSubmits, isSubmitEvent]
    · cases b
      · rcases hgp : env.gas_price with e | gp
        · simp [hfe, hgp, countSubmits, isSubmitEvent]
        · rcases hn : env.get_transaction_count defaultBlockTag with e | n
          · simp [hfe, hgp, hn, countSubmits, isSubmitEvent]
          · rcases hs : env.send_raw_transaction (mkMintSigned c gp n token_uri
              query_price_wei file_id data_class data_value) with e | txHash
            · simp [hfe, hgp, hn, hs, countSubmits, isSubmitEvent]
            · rcases hw : env.wait_for_transaction_receipt txHash with e | rc
              · simp [hfe, hgp, hn, hs, hw, countSubmits, isSubmitEvent]
              · simp [hfe, hgp, hn, hs, hw, countSubmits, isSubmitEvent]
      · simp [hfe, countSubmits, isSubmitEvent]
  · unfold pay_for_query
    rcases hgp : env.gas_price with e | gp
    · simp [hgp, countSubmits, isSubmitEvent]
    · rcases hn : env.get_transaction_count defaultBlockTag with e | n
      · simp [hgp, hn, countSubmits, isSubmitEvent]
      · rcases hs : env.send_raw_transaction (mkPaySigned c gp n token_id query
          payment_wei) with e | txHash
        · simp [hgp, hn, hs, countSubmits, isSubmitEvent]
        · rcases hw : env.wait_for_transaction_receipt txHash with e | rc
          · simp [hgp, hn, hs, hw, countSubmits, isSubmitEvent]
          · simp [hgp, hn, hs, hw, countSubmits, isSubmitEvent]

/-- C9: the three public operations are total over every network behaviour
and always return the structured dictionary shape: success true with no
error key, or success false with an error string present. -/
theorem public_ops_return_success_or_error
    (env : Env) (c : ClientState) (token_uri : String) (query_price_wei : Nat)
    (file_id data_class data_value : String) (token_id : Nat) (query : String)
    (payment_wei : Nat) (stats_id : Nat) :
    (((mint_dat env c token_uri query_price_wei file_id data_class
        data_value).1.success = true
      ∧ (mint_dat env c token_uri query_price_wei file_id data_class
          data_value).1.error = none)
     ∨ ((mint_dat env c token_uri query_price_wei file_id data_class
          data_value).1.success = false
      ∧ ((mint_dat env c token_uri query_price_wei file_id data_class
          data_value).1.error).isSome = true))
    ∧ (((pay_for_query env c token_id query payment_wei).1.success = true
      ∧ (pay_for_query env c token_id query payment_wei).1.error = none)
     ∨ ((pay_for_query env c token_id query payment_wei).1.success = false
      ∧ ((pay_for_query env c token_id query payment_wei).1.error).isSome = true))
    ∧ (((get_dat_stats env stats_id).success = true
        ∧ (get_dat_stats env stats_id).error = none)
     ∨ ((get_dat_stats env stats_id).success = false
        ∧ ((get_dat_stats env stats_id).error).isSome = true)) := by
  refine ⟨?_, ?_, ?_⟩
  · unfold mint_dat
    rcases hfe : env.fileIdExists file_id with e | b
    · simp [hfe, mintFailure]
    · cases b
      · rcases hgp : env.gas_price with e | gp
        · simp [hfe, hgp, mintFailure]
        · rcases hn : env.get_transaction_count defaultBlockTag with e | n
          · simp [hfe, hgp, hn, mintFailure]
          · rcases hs : env.send_raw_transaction (mkMintSigned c gp n token_uri
              query_price_wei file_id data_class data_value) with e | txHash
            · simp [hfe, hgp, hn, hs, mintFailure]
            · rcases hw : env.wait_for_transaction_receipt txHash with e | rc
              · simp [hfe, hgp, hn, hs, hw, mintFailure]
              · by_cases hst : rc.status = 1 <;>
                  simp [hfe, hgp, hn, hs, hw, hst, mintFailure]
      · simp [hfe, mintFailure]
  · unfold pay_for_query
    rcases hgp : env.gas_price with e | gp
    · simp [hgp, payFailure]
    · rcases hn : env.get_transaction_count defaultBlockTag with e | n
      · simp [hgp, hn, payFailure]
      · rcases hs : env.send_raw_transaction (mkPaySigned c gp n token_id query
          payment_wei) with e | txHash
        · simp [hgp, hn, hs, payFailure]
        · rcases hw : env.wait_for_transaction_receipt txHash with e | rc
          · simp [hgp, hn, hs, hw, payFailure]
          · by_cases hst : rc.status = 1 <;>
              simp [hgp, hn, hs, hw, hst, payFailure]
  · unfold get_dat_stats
    rcases hst : env.getDATStats stats_id with e | s
    · simp [hst]
    · simp [hst]

/-- C4: when the receipt the wait step returned reports on-chain failure
(status 0), neither write operation returns a successful result, even
though a transaction hash was obtained; both surface the
transaction-failed error text. -/
theorem failed_receipt_never_success
    (env : Env) (c : ClientState) (token_uri : String) (query_price_wei : Nat)
    (file_id data_class data_value : String) (token_id : Nat) (query : String)
    (payment_wei : Nat) (h : String) (r : Receipt)
    (hw : env.wait_for_transaction_receipt h = Except.ok r)
    (hst : r.status = 0) :
    (Event.waitReceiptCall h
        ∈ (mint_dat env c token_uri query_price_wei file_id data_class data_value).2 →
      (mint_dat env c token_uri query_price_wei file_id data_class
          data_value).1.success = false
      ∧ (mint_dat env c token_uri query_price_wei file_id data_class
          data_value).1.error = some "Transaction failed")
    ∧ (Event.waitReceiptCall h ∈ (pay_for_query env c token_id query payment_wei).2 →
      (pay_for_query env c token_id query payment_wei).1.success = false
      ∧ (pay_for_query env c token_id query payment_wei).1.error
          = some "Transaction failed") := by
  constructor
  · unfold mint_dat
    rcases hfe : env.fileIdExists file_id with e | b
    · intro hmem; simp [hfe] at hmem
    · cases b
      · rcases hgp : env.gas_price with e | gp
        · intro hmem; simp [hfe, hgp] at hmem
        · rcases hn : env.get_transaction_count defaultBlockTag with e | n
          · intro hmem; simp [hfe, hgp, hn] at hmem
          · rcases hs : env.send_raw_transaction (mkMintSigned c gp n token_uri
              query_price_wei file_id data_class data_value) with e | txHash
            · intro hmem; simp [hfe, hgp, hn, hs] at hmem
            · rcases hwB : env.wait_for_transaction_receipt txHash with e | rc
              · intro hmem
                simp [hfe, hgp, hn, hs, hwB] at hmem
                subst hmem
                rw [hwB] at hw
                simp at hw
              · intro hmem
                simp [hfe, hgp, hn, hs, hwB] at hmem
                subst hmem
                rw [hwB] at hw
                injection hw with hr
                subst hr
                simp [hfe, hgp, hn, hs, hwB, hst, mintFailure]
      · intro hmem; simp [hfe] at hmem
  · unfold pay_for_query
    rcases hgp : env.gas_price with e | gp
    · intro hmem; simp [hgp] at hmem
    · rcases hn : env.get_transaction_count defaultBlockTag with e | n
      · intro hmem; simp [hgp, hn] at hmem
      · rcases hs : env.send_raw_transaction (mkPaySigned c gp n token_id query
          payment_wei) with e | txHash
        · intro hmem; simp [hgp, hn, hs] at hmem
        · rcases hwB : env.wait_for_transaction_receipt txHash with e | rc
          · intro hmem
            simp [hgp, hn, hs, hwB] at hmem
            subst hmem
            rw [hwB] at hw
            simp at hw
          · intro hmem
            simp [hgp, hn, hs, hwB] at hmem
            subst hmem
            rw [hwB] at hw
            injection hw with hr
            subst hr
            simp [hgp, hn, hs, hwB, hst, payFailure]

/-- Witness for C4: with a network whose receipt reports failure, both
writes return the transaction-failed error. -/
theorem failed_receipt_never_success_witness :
    ((mint_dat envFailedTx sampleClient "uri" 1000 "fid1" "reference"
        "high").1.success = false
      ∧ (mint_dat envFailedTx sampleClient "uri" 1000 "fid1" "reference"
          "high").1.error = some "Transaction failed")
    ∧ ((pay_for_query envFailedTx sampleClient 3 "q" 1000).1.success = false
      ∧ (pay_for_query envFailedTx sampleClient 3 "q" 1000).1.error
          = some "Transaction failed") :=
  ⟨(failed_receipt_never_success envFailedTx sampleClient "uri" 1000 "fid1"
      "reference" "high" 3 "q" 1000 "0xhash"
      { status := 0, blockNumber := 12345, gasUsed := 21000, logsTokenId := none }
      rfl rfl).1 (by simp [mint_dat, envFailedTx, envHappy, defaultBlockTag]),
   (failed_receipt_never_success envFailedTx sampleClient "uri" 1000 "fid1"
      "reference" "high" 3 "q" 1000 "0xhash"
      { status := 0, blockNumber := 12345, gasUsed := 21000, logsTokenId := none }
      rfl rfl).2 (by simp [pay_for_query, envFailedTx, envHappy, defaultBlockTag])⟩

/-- C10: every successful mint returns as token_id exactly the block number
of its receipt: the token_id and block_number fields of the result are
equal, and both are the blockNumber of the receipt obtained by the wait
step. -/
theorem success_token_id_equals_block_number
    (env : Env) (c : ClientState) (token_uri : String) (query_price_wei : Nat)
    (file_id data_class data_value : String)
    (hsucc : (mint_dat env c token_uri query_price_wei file_id data_class
        data_value).1.success = true) :
    (mint_dat env c token_uri query_price_wei file_id data_class data_value).1.token_id
      = (mint_dat env c token_uri query_price_wei file_id data_class
          data_value).1.block_number
    ∧ ∃ txHash rc,
        Event.waitReceiptCall txHash
          ∈ (mint_dat env c token_uri query_price_wei file_id data_class data_value).2
        ∧ env.wait_for_transaction_receipt txHash = Except.ok rc
        ∧ (mint_dat env c token_uri query_price_wei file_id data_class
            data_value).1.token_id = some rc.blockNumber := by
  unfold mint_dat at hsucc ⊢
  rcases hfe : env.fileIdExists file_id with e | b
  · simp [hfe, mintFailure] at hsucc
  · cases b
    · rcases hgp : env.gas_price with e | gp
      · simp [hfe, hgp, mintFailure] at hsucc
      · rcases hn : env.get_transaction_count defaultBlockTag with e | n
        · simp [hfe, hgp, hn, mintFailure] at hsucc
        · rcases hs : env.send_raw_transaction (mkMintSigned c gp n token_uri
            query_price_wei file_id data_class data_value) with e | txHash
          · simp [hfe, hgp, hn, hs, mintFailure] at hsucc
          · rcases hwB : env.wait_for_transaction_receipt txHash with e | rc
            · simp [hfe, hgp, hn, hs, hwB, mintFailure] at hsucc
            · by_cases hst : rc.status = 1
              · refine ⟨by simp [hfe, hgp, hn, hs, hwB, hst], txHash, rc, ?_, hwB, ?_⟩
                · simp [hfe, hgp, hn, hs, hwB]
                · simp [hfe, hgp, hn, hs, hwB, hst]
              · simp [hfe, hgp, hn, hs, hwB, hst, mintFailure] at hsucc
    · simp [hfe, mintFailure] at hsucc

/-- Witness for C10 on a concrete successful mint. -/
theorem success_token_id_equals_block_number_witness :
    (mint_dat envHappy sampleClient "uri" 1000 "fid1" "reference"
        "high").1.token_id
      = (mint_dat envHappy sampleClient "uri" 1000 "fid1" "reference"
          "high").1.block_number
    ∧ ∃ txHash rc,
        Event.waitReceiptCall txHash
          ∈ (mint_dat envHappy sampleClient "uri" 1000 "fid1" "reference" "high").2
        ∧ envHappy.wait_for_transaction_receipt txHash = Except.ok rc
        ∧ (mint_dat envHappy sampleClient "uri" 1000 "fid1" "reference"
            "high").1.token_id = some rc.blockNumber :=
  success_token_id_equals_block_number envHappy sampleClient "uri" 1000 "fid1"
    "reference" "high" rfl

/-- C3 fails on the code: at a network whose successful receipt carries the
contract-assigned tokenId 7 in its event logs but sits in block 12345, the
mint result reports token_id 12345 — the block number — not the
event-decoded tokenId.  The client never reads the receipt logs. -/
theorem mint_token_id_is_block_number_not_event :
    envHappy.wait_for_transaction_receipt "0xhash" = Except.ok okReceipt
    ∧ okReceipt.logsTokenId = some 7
    ∧ okReceipt.blockNumber = 12345
    ∧ (mint_dat envHappy sampleClient "uri" 1000 "fid1" "reference"
        "high").1.success = true
    ∧ (mint_dat envHappy sampleClient "uri" 1000 "fid1" "reference"
        "high").1.token_id = some 12345
    ∧ some (12345 : Nat) ≠ some 7 := by
  refine ⟨rfl, rfl, rfl, rfl, rfl, by decide⟩

/-- Any transaction submitted by mint_dat was assembled from the gas price
and the default-tag transaction count fetched on this very call, and the
call resolved the nonce exactly once. -/
theorem mint_submitted_tx_spec
    (env : Env) (c : ClientState) (token_uri : String) (query_price_wei : Nat)
    (file_id data_class data_value : String) (stx : SignedTx)
    (hmem : Event.submitCall stx
      ∈ (mint_dat env c token_uri query_price_wei file_id data_class data_value).2) :
    ∃ gp n, env.gas_price = Except.ok gp
      ∧ env.get_transaction_count defaultBlockTag = Except.ok n
      ∧ stx = mkMintSigned c gp n token_uri query_price_wei file_id data_class data_value
      ∧ countNonceCalls
          (mint_dat env c token_uri query_price_wei file_id data_class data_value).2
          = 1 := by
  unfold mint_dat at hmem ⊢
  rcases hfe : env.fileIdExists file_id with e | b
  · simp [hfe] at hmem
  · cases b
    · rcases hgp : env.gas_price with e | gp
      · simp [hfe, hgp] at hmem
      · rcases hn : env.get_transaction_count defaultBlockTag with e | n
        · simp [hfe, hgp, hn] at hmem
        · rcases hs : env.send_raw_transaction (mkMintSigned c gp n token_uri
            query_price_wei file_id data_class data_value) with e | txHash
          · simp [hfe, hgp, hn, hs] at hmem
            exact ⟨gp, n, rfl, rfl, hmem,
              by simp [hfe, hgp, hn, hs, countNonceCalls, isNonceEvent]⟩
          · rcases hwB : env.wait_for_transaction_receipt txHash with e | rc
            · simp [hfe, hgp, hn, hs, hwB] at hmem
              exact ⟨gp, n, rfl, rfl, hmem,
                by simp [hfe, hgp, hn, hs, hwB, countNonceCalls, isNonceEvent]⟩
            · simp [hfe, hgp, hn, hs, hwB] at hmem
              exact ⟨gp, n, rfl, rfl, hmem,
                by simp [hfe, hgp, hn, hs, hwB, countNonceCalls, isNonceEvent]⟩
    · simp [hfe] at hmem

/-- Any transaction submitted by pay_for_query was assembled from the gas
price and the default-tag transaction count fetched on this very call, and
the call resolved the nonce exactly once. -/
theorem pay_submitted_tx_spec
    (env : Env) (c : ClientState) (token_id : Nat) (query : String)
    (payment_wei : Nat) (stx : SignedTx)
    (hmem : Event.submitCall stx ∈ (pay_for_query env c token_id query payment_wei).2) :
    ∃ gp n, env.gas_price = Except.ok gp
      ∧ env.get_transaction_count defaultBlockTag = Except.ok n
      ∧ stx = mkPaySigned c gp n token_id query payment_wei
      ∧ countNonceCalls (pay_for_query env c token_id query payment_wei).2 = 1 := by
  unfold pay_for_query at hmem ⊢
  rcases hgp : env.gas_price with e | gp
  · simp [hgp] at hmem
  · rcases hn : env.get_transaction_count defaultBlockTag with e | n
    · simp [hgp, hn] at hmem
    · rcases hs : env.send_raw_transaction (mkPaySigned c gp n token_id query
        payment_wei) with e | txHash
      · simp [hgp, hn, hs] at hmem
        exact ⟨gp, n, rfl, rfl, hmem,
          by simp [hgp, hn, hs, countNonceCalls, isNonceEvent]⟩
      · rcases hwB : env.wait_for_transaction_receipt txHash with e | rc
        · simp [hgp, hn, hs, hwB] at hmem
          exact ⟨gp, n, rfl, rfl, hmem,
            by simp [hgp, hn, hs, hwB, countNonceCalls, isNonceEvent]⟩
        · simp [hgp, hn, hs, hwB] at hmem
          exact ⟨gp, n, rfl, rfl, hmem,
            by simp [hgp, hn, hs, hwB, countNonceCalls, isNonceEvent]⟩

/-- mint_dat never resolves the nonce more than once per call. -/
theorem mint_nonce_calls_le_one
    (env : Env) (c : ClientState) (token_uri : String) (query_price_wei : Nat)
    (file_id data_class data_value : String) :
    countNonceCalls
      (mint_dat env c token_uri query_price_wei file_id data_class data_value).2 ≤ 1 := by
  unfold mint_dat
  rcases hfe : env.fileIdExists file_id with e | b
  · simp [hfe, countNonceCalls, isNonceEvent]
  · cases b
    · rcases hgp : env.gas_price with e | gp
      · simp [hfe, hgp, countNonceCalls, isNonceEvent]
      · rcases hn : env.get_transaction_count defaultBlockTag with e | n
        · simp [hfe, hgp, hn, countNonceCalls, isNonceEvent]
        · rcases hs : env.send_raw_transaction (mkMintSigned c gp n token_uri
            query_price_wei file_id data_class data_value) with e | txHash
          · simp [hfe, hgp, hn, hs, countNonceCalls, isNonceEvent]
          · rcases hwB : env.wait_for_transaction_receipt txHash with e | rc
            · simp [hfe, hgp, hn, hs, hwB, countNonceCalls, isNonceEvent]
            · simp [hfe, hgp, hn, hs, hwB, countNonceCalls, isNonceEvent]
    · simp [hfe, countNonceCalls, isNonceEvent]

/-- pay_for_query never resolves the nonce more than once per call. -/
theorem pay_nonce_calls_le_one
    (env : Env) (c : ClientState) (token_id : Nat) (query : String)
    (payment_wei : Nat) :
    countNonceCalls (pay_for_query env c token_id query payment_wei).2 ≤ 1 := by
  unfold pay_for_query
  rcases hgp : env.gas_price with e | gp
  · simp [hgp, countNonceCalls, isNonceEvent]
  · rcases hn : env.get_transaction_count defaultBlockTag with e | n
    · simp [hgp, hn, countNonceCalls, isNonceEvent]
    · rcases hs : env.send_raw_transaction (mkPaySigned c gp n token_id query
        payment_wei) with e | txHash
      · simp [hgp, hn, hs, countNonceCalls, isNonceEvent]
      · rcases hwB : env.wait_for_transaction_receipt txHash with e | rc
        · simp [hgp, hn, hs, hwB, countNonceCalls, isNonceEvent]
        · simp [hgp, hn, hs, hwB, countNonceCalls, isNonceEvent]

/-- C2 fails on the code: at a network state with one transaction still
queued (confirmed transaction count 5, pending count 6), the transaction
submitted by mint_dat carries nonce 5 — the confirmed count — not the
pending count 6 the claim requires.  A second sequential write while the
first is pending therefore reuses nonce 5 instead of using 6. -/
theorem nonce_uses_latest_not_pending_counterexample :
    submittedNonces
      (mint_dat envHappy sampleClient "uri" 1000 "fid1" "reference" "high").2 = [5]
    ∧ envHappy.get_transaction_count BlockTag.pending = Except.ok 6
    ∧ (5 : Nat) ≠ 6 :=
  ⟨rfl, rfl, by decide⟩

/-- C2 amended: each write operation resolves the nonce exactly once per
call, at call time, but from the transaction count of the latest confirmed
block (the web3 default), not from the pending count: every submitted
transaction carries the nonce returned by the latest-tag query. -/
theorem nonce_resolved_once_from_latest
    (env : Env) (c : ClientState) (token_uri : String) (query_price_wei : Nat)
    (file_id data_class data_value : String) (token_id : Nat) (query : String)
    (payment_wei : Nat) (stx : SignedTx)
    (hmem : Event.submitCall stx
        ∈ (mint_dat env c token_uri query_price_wei file_id data_class data_value).2
      ∨ Event.submitCall stx ∈ (pay_for_query env c token_id query payment_wei).2) :
    env.get_transaction_count BlockTag.latest = Except.ok stx.tx.nonce
    ∧ countNonceCalls
        (mint_dat env c token_uri query_price_wei file_id data_class data_value).2 ≤ 1
    ∧ countNonceCalls (pay_for_query env c token_id query payment_wei).2 ≤ 1
    ∧ (Event.submitCall stx
        ∈ (mint_dat env c token_uri query_price_wei file_id data_class data_value).2 →
        countNonceCalls
          (mint_dat env c token_uri query_price_wei file_id data_class
            data_value).2 = 1)
    ∧ (Event.submitCall stx ∈ (pay_for_query env c token_id query payment_wei).2 →
        countNonceCalls (pay_for_query env c token_id query payment_wei).2 = 1) := by
  refine ⟨?_, mint_nonce_calls_le_one env c token_uri query_price_wei file_id
      data_class data_value,
    pay_nonce_calls_le_one env c token_id query payment_wei, ?_, ?_⟩
  · rcases hmem with hm | hp
    · obtain ⟨gp, n, hgp, hn, hstx, hcount⟩ := mint_submitted_tx_spec env c token_uri
        query_price_wei file_id data_class data_value stx hm
      subst hstx
      simpa [defaultBlockTag, mkMintSigned, mkMintTx] using hn
    · obtain ⟨gp, n, hgp, hn, hstx, hcount⟩ := pay_submitted_tx_spec env c token_id
        query payment_wei stx hp
      subst hstx
      simpa [defaultBlockTag, mkPaySigned, mkPayTx] using hn
  · intro hm
    obtain ⟨gp, n, hgp, hn, hstx, hcount⟩ := mint_submitted_tx_spec env c token_uri
      query_price_wei file_id data_class data_value stx hm
    exact hcount
  · intro hp
    obtain ⟨gp, n, hgp, hn, hstx, hcount⟩ := pay_submitted_tx_spec env c token_id
      query payment_wei stx hp
    exact hcount

/-- Witness for the amended C2 at a concrete run. -/
theorem nonce_resolved_once_from_latest_witness :
    envHappy.get_transaction_count BlockTag.latest
      = Except.ok (mkMintSigned sampleClient 2 5 "uri" 1000 "fid1" "reference"
          "high").tx.nonce
    ∧ countNonceCalls
        (mint_dat envHappy sampleClient "uri" 1000 "fid1" "reference" "high").2 ≤ 1
    ∧ countNonceCalls (pay_for_query envHappy sampleClient 3 "q" 1000).2 ≤ 1
    ∧ (Event.submitCall (mkMintSigned sampleClient 2 5 "uri" 1000 "fid1" "reference"
          "high")
        ∈ (mint_dat envHappy sampleClient "uri" 1000 "fid1" "reference" "high").2 →
        countNonceCalls
          (mint_dat envHappy sampleClient "uri" 1000 "fid1" "reference" "high").2 = 1)
    ∧ (Event.submitCall (mkMintSigned sampleClient 2 5 "uri" 1000 "fid1" "reference"
          "high")
        ∈ (pay_for_query envHappy sampleClient 3 "q" 1000).2 →
        countNonceCalls (pay_for_query envHappy sampleClient 3 "q" 1000).2 = 1) :=
  nonce_resolved_once_from_latest envHappy sampleClient "uri" 1000 "fid1" "reference"
    "high" 3 "q" 1000
    (mkMintSigned sampleClient 2 5 "uri" 1000 "fid1" "reference" "high")
    (Or.inl (by simp [mint_dat, envHappy, defaultBlockTag]))

/-- C6: every transaction submitted by a write operation carries the fixed
operation-specific gas limit (500000 for mint, 200000 for payment) and the
gas price the network reported at build time. -/
theorem fixed_gas_limit_and_network_gas_price
    (env : Env) (c : ClientState) (token_uri : String) (query_price_wei : Nat)
    (file_id data_class data_value : String) (token_id : Nat) (query : String)
    (payment_wei : Nat) (stx : SignedTx) :
    (Event.submitCall stx
        ∈ (mint_dat env c token_uri query_price_wei file_id data_class data_value).2 →
      stx.tx.gas = 500000 ∧ env.gas_price = Except.ok stx.tx.gasPrice)
    ∧ (Event.submitCall stx ∈ (pay_for_query env c token_id query payment_wei).2 →
      stx.tx.gas = 200000 ∧ env.gas_price = Except.ok stx.tx.gasPrice) := by
  constructor
  · intro hm
    obtain ⟨gp, n, hgp, hn, hstx, hcount⟩ := mint_submitted_tx_spec env c token_uri
      query_price_wei file_id data_class data_value stx hm
    subst hstx
    exact ⟨rfl, hgp⟩
  · intro hp
    obtain ⟨gp, n, hgp, hn, hstx, hcount⟩ := pay_submitted_tx_spec env c token_id
      query payment_wei stx hp
    subst hstx
    exact ⟨rfl, hgp⟩

/-- Witness for C6 at a concrete run of each write operation. -/
theorem fixed_gas_limit_and_network_gas_price_witness :
    ((mkMintSigned sampleClient 2 5 "uri" 1000 "fid1" "reference" "high").tx.gas
        = 500000
      ∧ envHappy.gas_price = Except.ok (mkMintSigned sampleClient 2 5 "uri" 1000
          "fid1" "reference" "high").tx.gasPrice)
    ∧ ((mkPaySigned sampleClient 2 5 3 "q" 1000).tx.gas = 200000
      ∧ envHappy.gas_price
          = Except.ok (mkPaySigned sampleClient 2 5 3 "q" 1000).tx.gasPrice) :=
  ⟨(fixed_gas_limit_and_network_gas_price envHappy sampleClient "uri" 1000 "fid1"
      "reference" "high" 3 "q" 1000
      (mkMintSigned sampleClient 2 5 "uri" 1000 "fid1" "reference" "high")).1
      (by simp [mint_dat, envHappy, defaultBlockTag]),
   (fixed_gas_limit_and_network_gas_price envHappy sampleClient "uri" 1000 "fid1"
      "reference" "high" 3 "q" 1000 (mkPaySigned sampleClient 2 5 3 "q" 1000)).2
      (by simp [pay_for_query, envHappy, defaultBlockTag])⟩

/-- A process environment for __init__ with no contract address available
anywhere. -/
def initEnvSample : InitEnv :=
  { lazai_rpc_url := none, dat_contract_address := none,
    env_private_key := some "0xKEY",
    is_connected := fun _ => true, from_key := fun _ => some "0xACC" }

/-- A process environment for __init__ in which all settings resolve and
the endpoint is reachable. -/
def initEnvFull : InitEnv :=
  { lazai_rpc_url := none, dat_contract_address := some "0xC0",
    env_private_key := some "0xKEY",
    is_connected := fun _ => true, from_key := fun _ => some "0xACC" }

/-- C7: construction fails with ValueError (the configuration error) when
the contract address or the private key resolves to nothing, fails with
ConnectionError when the liveness probe on the chosen endpoint is
negative, and returns a usable client only when all three checks pass. -/
theorem init_validation
    (e : InitEnv) (rpc_url contract_address private_key : Option String) :
    (truthyStr (pyOr contract_address e.dat_contract_address) = false →
      datIntegrationInit e rpc_url contract_address private_key
        = Except.error (InitError.valueError "Contract address not provided"))
    ∧ (truthyStr (pyOr contract_address e.dat_contract_address) = true →
       truthyStr (pyOr private_key e.env_private_key) = false →
      datIntegrationInit e rpc_url contract_address private_key
        = Except.error (InitError.valueError "Private key not provided"))
    ∧ (truthyStr (pyOr contract_address e.dat_contract_address) = true →
       truthyStr (pyOr private_key e.env_private_key) = true →
       e.is_connected (Option.getD (pyOr rpc_url (some (Option.getD e.lazai_rpc_url
         "https://testnet.lazai.network"))) "") = false →
      datIntegrationInit e rpc_url contract_address private_key
        = Except.error (InitError.connectionError "Failed to connect to LazAI network"))
    ∧ (∀ cl, datIntegrationInit e rpc_url contract_address private_key = Except.ok cl →
       truthyStr (pyOr contract_address e.dat_contract_address) = true
       ∧ truthyStr (pyOr private_key e.env_private_key) = true
       ∧ e.is_connected cl.rpc_url = true) := by
  refine ⟨?_, ?_, ?_, ?_⟩
  · intro h1
    simp [datIntegrationInit, h1]
  · intro h1 h2
    simp [datIntegrationInit, h1, h2]
  · intro h1 h2 h3
    simp [datIntegrationInit, h1, h2, h3]
  · intro cl hok
    unfold datIntegrationInit at hok
    by_cases h1 : truthyStr (pyOr contract_address e.dat_contract_address) = false
    · simp [h1] at hok
    · by_cases h2 : truthyStr (pyOr private_key e.env_private_key) = false
      · simp [h1, h2] at hok
      · by_cases h3 : e.is_connected (Option.getD (pyOr rpc_url
            (some (Option.getD e.lazai_rpc_url "https://testnet.lazai.network"))) "")
            = false
        · simp [h1, h2, h3] at hok
        · rcases hk : e.from_key (Option.getD (pyOr private_key e.env_private_key) "")
              with _ | addr
          · simp [h1, h2, h3, hk] at hok
          · simp [h1, h2, h3, hk] at hok
            subst hok
            exact ⟨Bool.of_not_eq_false h1, Bool.of_not_eq_false h2,
              Bool.of_not_eq_false h3⟩

/-- Witness for C7: a missing contract address is rejected with the
configuration error, and a fully configured, reachable environment passes
all three checks. -/
theorem init_validation_witness :
    datIntegrationInit initEnvSample none none none
      = Except.error (InitError.valueError "Contract address not provided")
    ∧ (truthyStr (pyOr none initEnvFull.dat_contract_address) = true
       ∧ truthyStr (pyOr none initEnvFull.env_private_key) = true
       ∧ initEnvFull.is_connected
           (Client.rpc_url ⟨"https://testnet.lazai.network", "0xC0", "0xKEY",
             "0xACC"⟩) = true) :=
  ⟨(init_validation initEnvSample none none none).1 rfl,
   (init_validation initEnvFull none none none).2.2.2
     ⟨"https://testnet.lazai.network", "0xC0", "0xKEY", "0xACC"⟩ rfl⟩

/-- When the network never produces the receipt, the poll loop runs its
full poll budget and returns the timeout error. -/
theorem pollForReceipt_no_receipt (lookup : Nat → Option Receipt)
    (h : ∀ i, lookup i = none) :
    ∀ fuel k, pollForReceipt lookup fuel k = (Except.error "TimeExhausted", fuel) := by
  intro fuel
  induction fuel with
  | zero => intro k; rfl
  | succ m ih =>
      intro k
      simp [pollForReceipt, h k, ih (k + 1)]

/-- The poll loop never performs more polls than its budget. -/
theorem pollForReceipt_count_le (lookup : Nat → Option Receipt) :
    ∀ fuel k, (pollForReceipt lookup fuel k).2 ≤ fuel := by
  intro fuel
  induction fuel with
  | zero => intro k; simp [pollForReceipt]
  | succ m ih =>
      intro k
      rcases hl : lookup k with _ | r
      · simpa [pollForReceipt, hl] using ih (k + 1)
      · simp [pollForReceipt, hl]

/-- C8: receipt polling over a wait window of `timeout` with poll interval
`pollInterval` performs at most `maxPolls timeout pollInterval` polls; when
the receipt never appears it stops after exactly that many polls with the
timeout error rather than looping or reporting success, and a mint whose
wait step times out never reports success. -/
theorem receipt_polling_bounded_timeout
    (lookup : Nat → Option Receipt) (timeout pollInterval k : Nat)
    (hnone : ∀ i, lookup i = none) :
    pollForReceipt lookup (maxPolls timeout pollInterval) k
      = (Except.error "TimeExhausted", maxPolls timeout pollInterval)
    ∧ (∀ fuel j, (pollForReceipt lookup fuel j).2 ≤ fuel)
    ∧ (∀ env c token_uri query_price_wei file_id data_class data_value,
        (∀ hsh : String,
          env.wait_for_transaction_receipt hsh = Except.error "TimeExhausted") →
        (mint_dat env c token_uri query_price_wei file_id data_class
          data_value).1.success = false) := by
  refine ⟨pollForReceipt_no_receipt lookup hnone (maxPolls timeout pollInterval) k,
    pollForReceipt_count_le lookup, ?_⟩
  intro env c token_uri query_price_wei file_id data_class data_value hwAll
  unfold mint_dat
  rcases hfe : env.fileIdExists file_id with e | b
  · simp [hfe, mintFailure]
  · cases b
    · rcases hgp : env.gas_price with e | gp
      · simp [hfe, hgp, mintFailure]
      · rcases hn : env.get_transaction_count defaultBlockTag with e | n
        · simp [hfe, hgp, hn, mintFailure]
        · rcases hs : env.send_raw_transaction (mkMintSigned c gp n token_uri
            query_price_wei file_id data_class data_value) with e | txHash
          · simp [hfe, hgp, hn, hs, mintFailure]
          · rcases hwB : env.wait_for_transaction_receipt txHash with e | rc
            · simp [hfe, hgp, hn, hs, hwB, mintFailure]
            · rw [hwAll txHash] at hwB
              cases hwB
    · simp [hfe, mintFailure]

/-- Witness for C8 with the web3 default window (120s at 0.1s latency,
expressed in tenths of a second) and a receipt that never appears. -/
theorem receipt_polling_bounded_timeout_witness :
    pollForReceipt (fun _ => none) (maxPolls 1200 1) 0
      = (Except.error "TimeExhausted", maxPolls 1200 1)
    ∧ (mint_dat envTimeout sampleClient "uri" 1000 "fid1" "reference"
        "high").1.success = false :=
  ⟨(receipt_polling_bounded_timeout (fun _ => none) 1200 1 0 (fun _ => rfl)).1,
   (receipt_polling_bounded_timeout (fun _ => none) 1200 1 0 (fun _ => rfl)).2.2
     envTimeout sampleClient "uri" 1000 "fid1" "reference" "high" (fun _ => rfl)⟩

end LazAI
